import Mathlib

/-!
Shallow embedding of the creditx scoring and pricing service.

Python floats are modelled as rationals (`ℚ`), Python ints as `ℤ`.
The weights configuration (`weights.yaml`) is data loaded at runtime, not
code, so every operation takes the active `WeightsConfig` as a parameter;
the process-wide caches of `app/config.py` and `app/data_cache.py` are
modelled as explicit state.
-/

namespace CreditX

/-- Saturating clip, as used by `polars` `Series.clip(lo, hi)`:
values below `lo` go to `lo`, above `hi` go to `hi`. -/
def clipQ (lo hi x : ℚ) : ℚ := max lo (min x hi)

/-- `app/config.py` `TriageWeights`. -/
structure TriageWeights where
  exposure_limit : ℚ
  debtor_days : ℚ
  financials_attached : ℚ
  years_trading : ℚ
  broker_hit_rate : ℚ
  has_judgements : ℚ
  deriving DecidableEq, Repr

/-- `app/config.py` `RenewalWeights`. -/
structure RenewalWeights where
  days_to_expiry : ℚ
  utilization_pct : ℚ
  claims_ratio_24m : ℚ
  requested_change_pct : ℚ
  deriving DecidableEq, Repr

/-- `app/config.py` `PricingAdjustments` (signed bps deltas). -/
structure PricingAdjustments where
  financials_attached : ℤ
  broker_hit_rate : ℤ
  debtor_days : ℤ
  has_judgements : ℤ
  high_coverage : ℤ
  limited_trading : ℤ
  deriving DecidableEq, Repr

/-- `app/config.py` `PricingBounds`. -/
structure PricingBounds where
  min_rate : ℤ
  max_rate : ℤ
  deriving DecidableEq, Repr

/-- `app/config.py` `Thresholds`. -/
structure Thresholds where
  broker_hit_rate_min : ℚ
  debtor_days_max : ℚ
  high_coverage_min : ℚ
  limited_trading_max : ℚ
  debtor_days_normalization : ℚ
  years_trading_normalization : ℚ
  claims_ratio_max : ℚ
  change_pct_min : ℚ
  change_pct_max : ℚ
  deriving DecidableEq, Repr

/-- `app/config.py` `BrokerScoreCurve`. -/
structure BrokerScoreCurve where
  description : String
  adjustment_bps : ℤ
  deriving DecidableEq, Repr

/-- `app/config.py` `WeightsConfig`: the validated shape of `weights.yaml`.
The two mappings are modelled as association lists. -/
structure WeightsConfig where
  version : String
  triage_weights : TriageWeights
  renewals_weights : RenewalWeights
  pricing_adjustments : PricingAdjustments
  pricing_bounds : PricingBounds
  thresholds : Thresholds
  broker_score_curves : List (String × BrokerScoreCurve)
  sector_coverage_limits : List (String × ℚ)
  deriving DecidableEq, Repr

/-- `app/pricing.py` `SECTOR_BASE_RATES`: base sector rates in bps. -/
def SECTOR_BASE_RATES : List (String × ℤ) :=
  [("Retail", 220),
   ("Manufacturing", 260),
   ("Logistics", 240),
   ("Agri", 280),
   ("Services", 200),
   ("Other", 250)]

/-- The closed sector enumeration of `app/models.py` (`Submission.sector`
and `Policy.sector` `Literal`). -/
def submissionSectors : List String :=
  ["Retail", "Manufacturing", "Logistics", "Agri", "Services", "Other"]

/-- The argument tuple of `app/pricing.py` `_suggest_rate_cached`
(also the memoization key of the `cache_pricing` decorator). -/
structure SubmissionArgs where
  sector : String
  financials_attached : Bool
  broker_hit_rate : ℚ
  debtor_days : ℚ
  has_judgements : Bool
  requested_cov_pct : ℚ
  years_trading : ℚ
  deriving DecidableEq, Repr

/-- Python `f"{n:+d}"`: renders the sign even for non-negative ints. -/
def fmtSigned (n : ℤ) : String :=
  if 0 ≤ n then "+" ++ toString n else toString n

/-- The pure body of `app/pricing.py` `_suggest_rate_cached` (lines 85-142),
with the configuration returned by `get_weights_config()` made an explicit
parameter.  `none` models the `KeyError` a sector outside
`SECTOR_BASE_RATES` would raise.  The six conditional `rate +=` /
`adjustments.append` steps are threaded as rate-list pairs in source
order, then the rate is clipped to the configured bounds and a clip note
is appended when the clipped rate equals a bound. -/
def suggestRateCached (cfg : WeightsConfig) (a : SubmissionArgs) :
    Option (ℤ × List String) :=
  match SECTOR_BASE_RATES.lookup a.sector with
  | none => none
  | some base_rate =>
    let adj := cfg.pricing_adjustments
    let th := cfg.thresholds
    let bounds := cfg.pricing_bounds
    let s0 : ℤ × List String := (base_rate, [])
    let s1 : ℤ × List String :=
      if a.financials_attached then
        (s0.1 + adj.financials_attached,
         s0.2 ++ ["Financials attached (" ++ fmtSigned adj.financials_attached ++ " bps)"])
      else s0
    let s2 : ℤ × List String :=
      if a.broker_hit_rate ≥ th.broker_hit_rate_min then
        (s1.1 + adj.broker_hit_rate,
         s1.2 ++ ["Good broker track record (" ++ fmtSigned adj.broker_hit_rate ++ " bps)"])
      else s1
    let s3 : ℤ × List String :=
      if a.debtor_days > th.debtor_days_max then
        (s2.1 + adj.debtor_days,
         s2.2 ++ ["High debtor days (+" ++ toString adj.debtor_days ++ " bps)"])
      else s2
    let s4 : ℤ × List String :=
      if a.has_judgements then
        (s3.1 + adj.has_judgements,
         s3.2 ++ ["Outstanding judgements (+" ++ toString adj.has_judgements ++ " bps)"])
      else s3
    let s5 : ℤ × List String :=
      if a.requested_cov_pct > th.high_coverage_min then
        (s4.1 + adj.high_coverage,
         s4.2 ++ ["High coverage request (+" ++ toString adj.high_coverage ++ " bps)"])
      else s4
    let s6 : ℤ × List String :=
      if a.years_trading < th.limited_trading_max then
        (s5.1 + adj.limited_trading,
         s5.2 ++ ["Limited trading history (+" ++ toString adj.limited_trading ++ " bps)"])
      else s5
    let rate : ℤ := max bounds.min_rate (min bounds.max_rate s6.1)
    let adjustments : List String :=
      if rate = bounds.min_rate then
        s6.2 ++ ["Rate clipped to minimum (" ++ toString bounds.min_rate ++ " bps)"]
      else if rate = bounds.max_rate then
        s6.2 ++ ["Rate clipped to maximum (" ++ toString bounds.max_rate ++ " bps)"]
      else s6.2
    some (rate, adjustments)

/-- Decomposition of the pricing computation: the rate before clipping,
as base rate plus the six conditional deltas. -/
def preClipRate (cfg : WeightsConfig) (a : SubmissionArgs) (base_rate : ℤ) : ℤ :=
  base_rate
  + (if a.financials_attached then cfg.pricing_adjustments.financials_attached else 0)
  + (if a.broker_hit_rate ≥ cfg.thresholds.broker_hit_rate_min then
       cfg.pricing_adjustments.broker_hit_rate else 0)
  + (if a.debtor_days > cfg.thresholds.debtor_days_max then
       cfg.pricing_adjustments.debtor_days else 0)
  + (if a.has_judgements then cfg.pricing_adjustments.has_judgements else 0)
  + (if a.requested_cov_pct > cfg.thresholds.high_coverage_min then
       cfg.pricing_adjustments.high_coverage else 0)
  + (if a.years_trading < cfg.thresholds.limited_trading_max then
       cfg.pricing_adjustments.limited_trading else 0)

/-- Decomposition of the pricing computation: the adjustment strings
produced by the six conditional steps, in source order, before any
clip note. -/
def baseAdjustments (cfg : WeightsConfig) (a : SubmissionArgs) : List String :=
  (if a.financials_attached then
     ["Financials attached (" ++ fmtSigned cfg.pricing_adjustments.financials_attached ++ " bps)"]
   else [])
  ++ (if a.broker_hit_rate ≥ cfg.thresholds.broker_hit_rate_min then
        ["Good broker track record (" ++ fmtSigned cfg.pricing_adjustments.broker_hit_rate ++ " bps)"]
      else [])
  ++ (if a.debtor_days > cfg.thresholds.debtor_days_max then
        ["High debtor days (+" ++ toString cfg.pricing_adjustments.debtor_days ++ " bps)"]
      else [])
  ++ (if a.has_judgements then
        ["Outstanding judgements (+" ++ toString cfg.pricing_adjustments.has_judgements ++ " bps)"]
      else [])
  ++ (if a.requested_cov_pct > cfg.thresholds.high_coverage_min then
        ["High coverage request (+" ++ toString cfg.pricing_adjustments.high_coverage ++ " bps)"]
      else [])
  ++ (if a.years_trading < cfg.thresholds.limited_trading_max then
        ["Limited trading history (+" ++ toString cfg.pricing_adjustments.limited_trading ++ " bps)"]
      else [])

/-- The clip note appended by `_suggest_rate_cached` when the clipped
rate equals the configured minimum. -/
def minClipNote (cfg : WeightsConfig) : String :=
  "Rate clipped to minimum (" ++ toString cfg.pricing_bounds.min_rate ++ " bps)"

/-- The clip note appended by `_suggest_rate_cached` when the clipped
rate equals the configured maximum. -/
def maxClipNote (cfg : WeightsConfig) : String :=
  "Rate clipped to maximum (" ++ toString cfg.pricing_bounds.max_rate ++ " bps)"

/-- `polars` `Series.max` over an embedded column: `none` on an empty
frame (polars returns `None` there). -/
def seriesMax : List ℚ → Option ℚ
  | [] => none
  | x :: xs => some (xs.foldl max x)

/-- `polars` `Series.min` over an embedded column. -/
def seriesMin : List ℚ → Option ℚ
  | [] => none
  | x :: xs => some (xs.foldl min x)

/-- Boolean flag cast to a float, as `.cast(pl.Float64)` does on a 0/1
flag column. -/
def boolQ (b : Bool) : ℚ := if b then 1 else 0

/-- One row of the DataFrame produced by
`app/features.py` `prepare_submissions_features`: the fields of
`app/models.py` `Submission`, with the boolean flags kept as flags
(the 0/1 `Int8` cast is value-preserving) and the numeric clips
already applied upstream of `triage_scores`. -/
structure SubmissionRecord where
  submission_id : String
  broker : String
  sector : String
  exposure_limit : ℚ
  debtor_days : ℚ
  financials_attached : Bool
  years_trading : ℚ
  broker_hit_rate : ℚ
  requested_cov_pct : ℚ
  has_judgements : Bool
  deriving DecidableEq, Repr

/-- The per-record weighted sum of `app/service.py` `triage_scores`
(lines 32-44), before the clip to [0,1]; `minE` and `rangeE` are the
batch exposure statistics computed in lines 27-29. -/
def triageLinear (cfg : WeightsConfig) (minE rangeE : ℚ) (r : SubmissionRecord) : ℚ :=
  cfg.triage_weights.exposure_limit * ((r.exposure_limit - minE) / rangeE)
  + cfg.triage_weights.debtor_days
    * (1 - r.debtor_days / cfg.thresholds.debtor_days_normalization)
  + cfg.triage_weights.financials_attached * boolQ r.financials_attached
  + cfg.triage_weights.years_trading
    * (r.years_trading / cfg.thresholds.years_trading_normalization)
  + cfg.triage_weights.broker_hit_rate * r.broker_hit_rate
  + cfg.triage_weights.has_judgements * (1 - boolQ r.has_judgements)

/-- `app/service.py` `triage_scores` restricted to the score pipeline:
batch min/max of `exposure_limit`, range with the `max > min` guard,
weighted sum, clip to [0,1].  Returns `(submission_id, score)` pairs in
batch order; reason-string generation (lines 50-78) is independent of the
scores and is not embedded since no claim concerns it.  `none` models the
`TypeError` the subtraction on line 29 raises when the frame is empty
(polars `max`/`min` return `None`). -/
def triage_scores (cfg : WeightsConfig) (subs : List SubmissionRecord) :
    Option (List (String × ℚ)) :=
  match seriesMax (subs.map (·.exposure_limit)),
        seriesMin (subs.map (·.exposure_limit)) with
  | some maxE, some minE =>
    let rangeE : ℚ := if maxE > minE then maxE - minE else 1
    some (subs.map fun r =>
      (r.submission_id, clipQ 0 1 (triageLinear cfg minE rangeE r)))
  | _, _ => none

/-- Modelled from the claim wording for C7: batch-relative exposure
normalization `(e - batch_min) / (batch_max - batch_min)` with the
denominator replaced by 1 when all exposures in the batch are equal
(`min == max`). -/
def normExposureSpec (minE maxE e : ℚ) : ℚ :=
  (e - minE) / (if maxE = minE then 1 else maxE - minE)

/-- Python-level errors surfaced by the embedded operations. -/
inductive PyError where
  | typeError
  deriving DecidableEq, Repr

/-- `thresholds["key"]` as written on `app/service.py` lines 100-103:
`Thresholds` is a pydantic `BaseModel`, which defines no `__getitem__`,
so subscripting an instance raises
`TypeError: 'Thresholds' object is not subscriptable` for every key. -/
def thresholdsGetItem (_t : Thresholds) (_key : String) : Except PyError ℚ :=
  .error .typeError

/-- One row of the DataFrame produced by
`app/features.py` `prepare_policies_features`: the fields of
`app/models.py` `Policy` (with `utilization_pct`, `claims_ratio_24m`
and `days_to_expiry` already clipped upstream of `renewals_priority`). -/
structure PolicyRecord where
  policy_id : String
  sector : String
  current_premium : ℚ
  limit : ℚ
  utilization_pct : ℚ
  claims_last_24m_cnt : ℤ
  claims_ratio_24m : ℚ
  days_to_expiry : ℚ
  requested_change_pct : ℚ
  broker : String
  deriving DecidableEq, Repr

/-- The per-record weighted sum of `app/service.py` `renewals_priority`
(lines 105-114), before the clip to [0,1], given the two clip bounds
`cmin`/`cmax` the code reads via subscripting. -/
def renewalLinear (cfg : WeightsConfig) (cmin cmax : ℚ) (p : PolicyRecord) : ℚ :=
  cfg.renewals_weights.days_to_expiry * (1 - p.days_to_expiry / 365)
  + cfg.renewals_weights.utilization_pct * p.utilization_pct
  + cfg.renewals_weights.claims_ratio_24m
    * (clipQ 0 cfg.thresholds.claims_ratio_max p.claims_ratio_24m
       / cfg.thresholds.claims_ratio_max)
  + cfg.renewals_weights.requested_change_pct
    * (-(clipQ cmin cmax p.requested_change_pct))

/-- `app/service.py` `renewals_priority` restricted to the score
pipeline.  Lines 100-103 read `thresholds["change_pct_min"]` and
`thresholds["change_pct_max"]` by subscripting the pydantic model, which
raises `TypeError` before any score is computed; the rest of the
function (weighted sum, clip, reasons) is unreachable.  Reason-string
generation is not embedded since no claim concerns it. -/
def renewals_priority (cfg : WeightsConfig) (policies : List PolicyRecord) :
    Except PyError (List (String × ℚ)) := do
  let cmin ← thresholdsGetItem cfg.thresholds "change_pct_min"
  let cmax ← thresholdsGetItem cfg.thresholds "change_pct_max"
  pure (policies.map fun p =>
    (p.policy_id, clipQ 0 1 (renewalLinear cfg cmin cmax p)))

/-- Modelled from the spec (section 4.4) for comparison: the renewal
priority formula as specified, reading the clip bounds from the
`Thresholds` fields directly (attribute access, as the rest of
`renewals_priority` does). -/
def renewalsPrioritySpec (cfg : WeightsConfig) (policies : List PolicyRecord) :
    List (String × ℚ) :=
  policies.map fun p =>
    (p.policy_id,
     clipQ 0 1 (renewalLinear cfg cfg.thresholds.change_pct_min
                  cfg.thresholds.change_pct_max p))

/-- Process-wide mutable state of `app/config.py` and
`app/data_cache.py`: the `lru_cache(maxsize=1)` on `get_weights_config`
(holding at most one loaded configuration) and the
`lru_cache(maxsize=1024)` installed by `cache_pricing` on
`_suggest_rate_cached`, keyed by the argument tuple.  The LRU eviction
policy is irrelevant to the claims and is not modelled; the pricing
cache is an association list. -/
structure AppState where
  weightsCache : Option WeightsConfig
  pricingCache : List (SubmissionArgs × (ℤ × List String))
  deriving DecidableEq, Repr

/-- The outcome of opening, YAML-parsing and pydantic-validating the
current on-disk `weights.yaml` (config.py lines 90-92).  The document is
data external to the program, so the outcome is a parameter: `.ok cfg`
when the document is well-formed and valid, `.error msg` when loading or
validation raises. -/
def LoadOutcome : Type := Except String WeightsConfig

/-- `app/config.py` `get_weights_config` as a state transformer: return
the cached configuration if the single-slot `lru_cache` holds one,
otherwise perform the load; a successful load fills the cache, a failed
load raises and caches nothing (`lru_cache` does not cache exceptions). -/
def get_weights_config (load : LoadOutcome) (st : AppState) :
    Except String WeightsConfig × AppState :=
  match st.weightsCache with
  | some cfg => (.ok cfg, st)
  | none =>
    match load with
    | .ok cfg => (.ok cfg, { st with weightsCache := some cfg })
    | .error e => (.error e, st)

/-- `app/config.py` `reload_weights` (lines 95-98): first
`get_weights_config.cache_clear()`, then `get_weights_config(path)` —
the cache is emptied before the new document is loaded. -/
def reload_weights (load : LoadOutcome) (st : AppState) :
    Except String WeightsConfig × AppState :=
  get_weights_config load { st with weightsCache := none }

/-- `app/pricing.py` `_suggest_rate_cached` as actually deployed: the
`cache_pricing` LRU wrapper around the pure body, which itself calls
`get_weights_config()` (line 86), capturing whatever configuration the
config cache currently yields.  A cache hit returns the memoized pair
without consulting the configuration at all.  The inner `Option` models
the `KeyError` on an unknown sector; a raising call is not memoized. -/
def suggest_rate_stateful (load : LoadOutcome) (a : SubmissionArgs)
    (st : AppState) :
    Except String (Option (ℤ × List String)) × AppState :=
  match st.pricingCache.lookup a with
  | some res => (.ok (some res), st)
  | none =>
    match get_weights_config load st with
    | (.error e, st1) => (.error e, st1)
    | (.ok cfg, st1) =>
      match suggestRateCached cfg a with
      | none => (.ok none, st1)
      | some res =>
        (.ok (some res), { st1 with pricingCache := (a, res) :: st1.pricingCache })

/-- `app/api/common.py` `TRUE_VALUES`. -/
def TRUE_VALUES : List String := ["true", "1", "yes", "y"]

/-- `app/api/common.py` `FALSE_VALUES`. -/
def FALSE_VALUES : List String := ["false", "0", "no", "n"]

/-- Python `str.lower()`, modelled per character.  (`Char.toLower`
agrees with Python on ASCII, the alphabet of every vocabulary word and
every input a claim mentions.) -/
def pyLower (s : String) : String := String.mk (s.data.map Char.toLower)

/-- Python `str.strip()`: drop leading and trailing whitespace. -/
def pyStrip (s : String) : String :=
  String.mk (((s.data.dropWhile Char.isWhitespace).reverse.dropWhile
    Char.isWhitespace).reverse)

/-- `app/api/common.py` `parse_bool` (lines 57-65): strip, lowercase,
then the relaxed vocabulary with unrecognized values falling back to
`false`. -/
def parse_bool (value : String) : Bool :=
  let lowered := pyLower (pyStrip value)
  if lowered ∈ TRUE_VALUES then true
  else if lowered ∈ FALSE_VALUES then false
  else false

/-- Python `", ".join(sorted(xs))`. -/
def joinSorted (xs : List String) : String :=
  String.intercalate ", " (xs.mergeSort (· ≤ ·))

/-- The HTTP 400 detail built by `app/api/common.py`
`validate_csv_columns` when required columns are missing. -/
def missingColumnsMessage (fileType : String) (required missing : List String) :
    String :=
  "Missing required columns in " ++ (fileType ++ (" CSV: " ++ (joinSorted missing
    ++ (". Required columns: " ++ joinSorted required))))

/-- `app/api/common.py` `validate_csv_columns` (lines 42-54):
`missing = required - set(columns)`; error iff non-empty. -/
def validate_csv_columns (columns : List String) (required : List String)
    (fileType : String) : Except String Unit :=
  let missing := required.filter (fun c => c ∉ columns)
  if missing.isEmpty then .ok ()
  else .error (missingColumnsMessage fileType required missing)

/-- The HTTP 400 detail for a row-level conversion failure
(common.py lines 149-154). -/
def rowErrorMessage (index : Nat) (exc : String) : String :=
  "Error parsing row " ++ (toString index ++ (": " ++ (exc
    ++ ". Please check data types and required fields.")))

/-- The row-conversion loop of `parse_csv_upload` (lines 141-154):
rows are converted in order with 1-based indices; `csv.DictReader`
yields no entry for blank lines, so every listed row is non-blank.
The first converter failure aborts with a row-indexed message. -/
def convertRows (rowConverter : List (String × String) → Except String α)
    (header : List String) : Nat → List (List String) → Except String (List α)
  | _, [] => .ok []
  | index, row :: rest =>
    match rowConverter (header.zip row) with
    | .error exc => .error (rowErrorMessage index exc)
    | .ok rec =>
      match convertRows rowConverter header (index + 1) rest with
      | .error e => .error e
      | .ok recs => .ok (rec :: recs)

/-- `app/api/common.py` `parse_csv_upload` (lines 108-167) after the
transport-level steps (filename suffix check, UTF-8 decoding): the
decoded CSV is a list of rows of fields, `csv.DictReader` takes the
first row as the header (`fieldnames is None` exactly when the file has
no rows), the header is validated against the required columns, the data
rows are converted, and a run that produced no records fails with the
no-data-rows message. -/
def parse_csv_upload (required : List String) (fileType : String)
    (rowConverter : List (String × String) → Except String α)
    (rows : List (List String)) : Except String (List α) :=
  match rows with
  | [] => .error "CSV file is empty or missing a header row"
  | header :: dataRows =>
    match validate_csv_columns header required fileType with
    | .error e => .error e
    | .ok _ =>
      match convertRows rowConverter header 1 dataRows with
      | .error e => .error e
      | .ok records =>
        if records.isEmpty then .error "CSV file is empty or has no data rows"
        else .ok records

/-- Modelled from the claim wording for C7: the triage score formula
with the batch-relative `normExposureSpec` in place of the code's
range computation. -/
def triageScoreSpec (cfg : WeightsConfig) (minE maxE : ℚ) (r : SubmissionRecord) : ℚ :=
  cfg.triage_weights.exposure_limit * normExposureSpec minE maxE r.exposure_limit
  + cfg.triage_weights.debtor_days
    * (1 - r.debtor_days / cfg.thresholds.debtor_days_normalization)
  + cfg.triage_weights.financials_attached * boolQ r.financials_attached
  + cfg.triage_weights.years_trading
    * (r.years_trading / cfg.thresholds.years_trading_normalization)
  + cfg.triage_weights.broker_hit_rate * r.broker_hit_rate
  + cfg.triage_weights.has_judgements * (1 - boolQ r.has_judgements)

/-- `app/api/common.py` `POLICY_COLUMNS` (a `set` in the source; listed
here in declaration order). -/
def POLICY_COLUMNS : List String :=
  ["policy_id", "sector", "current_premium", "limit", "utilization_pct",
   "claims_last_24m_cnt", "claims_ratio_24m", "days_to_expiry",
   "requested_change_pct", "broker"]

/-- `app/api/common.py` `SUBMISSION_COLUMNS` (a `set` in the source;
listed here in declaration order). -/
def SUBMISSION_COLUMNS : List String :=
  ["submission_id", "broker", "sector", "exposure_limit", "debtor_days",
   "financials_attached", "years_trading", "broker_hit_rate",
   "requested_cov_pct", "has_judgements"]

/-!
Concrete data used by witnesses and counterexamples.  `weights.yaml`
ships outside the embedded sources, so these values are a plausible
valid configuration (adjustment magnitudes and bounds consistent with
the repository's test suite: judgements +60, debtor days +25, limited
trading +30, high coverage +20, bounds 120-500); the claims are settled
for all configurations, these values only instantiate them.
-/

/-- A concrete valid weights configuration. -/
def cfgExample : WeightsConfig where
  version := "1.0.0"
  triage_weights :=
    { exposure_limit := mkRat 3 10, debtor_days := mkRat 1 5,
      financials_attached := mkRat 3 20, years_trading := mkRat 1 10,
      broker_hit_rate := mkRat 3 20, has_judgements := mkRat 1 10 }
  renewals_weights :=
    { days_to_expiry := mkRat 2 5, utilization_pct := mkRat 3 10,
      claims_ratio_24m := mkRat 1 5, requested_change_pct := mkRat 1 10 }
  pricing_adjustments :=
    { financials_attached := -20, broker_hit_rate := -10, debtor_days := 25,
      has_judgements := 60, high_coverage := 20, limited_trading := 30 }
  pricing_bounds := { min_rate := 120, max_rate := 500 }
  thresholds :=
    { broker_hit_rate_min := mkRat 1 2, debtor_days_max := 75,
      high_coverage_min := mkRat 17 20, limited_trading_max := 2,
      debtor_days_normalization := 180, years_trading_normalization := 30,
      claims_ratio_max := 2, change_pct_min := mkRat (-1) 2,
      change_pct_max := mkRat 1 2 }
  broker_score_curves :=
    [("tier_1", { description := "Top brokers", adjustment_bps := -10 })]
  sector_coverage_limits := [("default", mkRat 9 10)]

/-- The strong-profile pricing arguments from the repository's test
suite (`Retail`, financials attached, good broker, short debtor days). -/
def strongArgs : SubmissionArgs where
  sector := "Retail"
  financials_attached := true
  broker_hit_rate := mkRat 17 20
  debtor_days := 45
  has_judgements := false
  requested_cov_pct := mkRat 3 4
  years_trading := 8

/-- Pricing arguments that trigger no adjustment at all
(`Services` base rate 200, every condition false under `cfgExample`). -/
def quietArgs : SubmissionArgs where
  sector := "Services"
  financials_attached := false
  broker_hit_rate := 0
  debtor_days := 0
  has_judgements := false
  requested_cov_pct := 0
  years_trading := 10

/-- `cfgExample` with `min_rate` raised to 200: the `Services` base rate
then sits exactly on the lower bound. -/
def cfgMin200 : WeightsConfig :=
  { cfgExample with pricing_bounds := { min_rate := 200, max_rate := 500 } }

/-- `cfgExample` with `max_rate` lowered to 300. -/
def cfgMax300 : WeightsConfig :=
  { cfgExample with pricing_bounds := { min_rate := 120, max_rate := 300 } }

/-- `cfgExample` with a reloaded pricing table: judgements now +100. -/
def cfgReloaded : WeightsConfig :=
  { cfgExample with
      version := "1.1.0"
      pricing_adjustments :=
        { financials_attached := -20, broker_hit_rate := -10, debtor_days := 25,
          has_judgements := 100, high_coverage := 20, limited_trading := 30 } }

/-- `quietArgs` with outstanding judgements. -/
def judgementsArgs : SubmissionArgs := { quietArgs with has_judgements := true }

/-- `cfgExample` with triage weights that push the weighted sum past 1
for a perfect broker, judgements or not. -/
def cfgTriageSaturated : WeightsConfig :=
  { cfgExample with
      triage_weights :=
        { exposure_limit := 0, debtor_days := 0, financials_attached := 0,
          years_trading := 0, broker_hit_rate := 2,
          has_judgements := mkRat 1 10 } }

/-- A submission record with a perfect broker hit rate and no
judgements. -/
def perfectBrokerRec : SubmissionRecord where
  submission_id := "s1"
  broker := "B"
  sector := "Agri"
  exposure_limit := 1000000
  debtor_days := 45
  financials_attached := true
  years_trading := 8
  broker_hit_rate := 1
  requested_cov_pct := mkRat 3 4
  has_judgements := false

/-- `perfectBrokerRec` with outstanding judgements and every other
field identical. -/
def perfectBrokerRecJ : SubmissionRecord :=
  { perfectBrokerRec with has_judgements := true }

/-- Agri pricing arguments whose pre-clip rate is 280 without
judgements and 340 with them. -/
def agriArgs : SubmissionArgs := { quietArgs with sector := "Agri" }

/-- The strong-profile triage record used by witnesses. -/
def strongRec : SubmissionRecord where
  submission_id := "s1"
  broker := "PremiumBroker"
  sector := "Retail"
  exposure_limit := 1000000
  debtor_days := 45
  financials_attached := true
  years_trading := 8
  broker_hit_rate := mkRat 17 20
  requested_cov_pct := mkRat 3 4
  has_judgements := false

/-!  Helper lemmas shared by the claim theorems.  -/

/-- One conditional accumulation step of `_suggest_rate_cached`,
rewritten as independent contributions to the rate and the list. -/
theorem accumStep_eq (c : Prop) [Decidable c] (x : ℤ) (l : List String)
    (d : ℤ) (s : String) :
    (if c then (x + d, l ++ [s]) else (x, l))
      = (x + (if c then d else 0), l ++ (if c then [s] else [])) := by
  split <;> simp

/-- Factoring the common adjustment-list prefix out of the clip-note
conditional at the end of `_suggest_rate_cached`. -/
theorem clipNoteFactor (c1 c2 : Prop) [Decidable c1] [Decidable c2]
    (l u v : List String) :
    (if c1 then l ++ u else if c2 then l ++ v else l)
      = l ++ (if c1 then u else if c2 then v else []) := by
  split
  · rfl
  · split <;> simp

/-- `suggestRateCached` decomposed: on a known sector the rate is the
clipped `preClipRate` and the adjustments are `baseAdjustments` followed
by the clip note dictated by the clipped rate. -/
theorem suggestRateCached_decompose (cfg : WeightsConfig) (a : SubmissionArgs)
    (base_rate : ℤ) (h : SECTOR_BASE_RATES.lookup a.sector = some base_rate) :
    suggestRateCached cfg a =
      some (max cfg.pricing_bounds.min_rate
              (min cfg.pricing_bounds.max_rate (preClipRate cfg a base_rate)),
            baseAdjustments cfg a ++
              (if max cfg.pricing_bounds.min_rate
                    (min cfg.pricing_bounds.max_rate (preClipRate cfg a base_rate))
                  = cfg.pricing_bounds.min_rate then [minClipNote cfg]
               else if max cfg.pricing_bounds.min_rate
                    (min cfg.pricing_bounds.max_rate (preClipRate cfg a base_rate))
                  = cfg.pricing_bounds.max_rate then [maxClipNote cfg]
               else [])) := by
  unfold suggestRateCached
  rw [h]
  simp only [accumStep_eq, clipNoteFactor]
  unfold preClipRate baseAdjustments minClipNote maxClipNote
  simp only [List.nil_append, List.append_assoc]

theorem foldl_min_le_foldl_max (xs : List ℚ) :
    ∀ a b : ℚ, a ≤ b → xs.foldl min a ≤ xs.foldl max b := by
  induction xs with
  | nil => intro a b h; simpa using h
  | cons x xs ih =>
    intro a b h
    exact ih _ _ (le_trans (min_le_left a x) (le_trans h (le_max_left b x)))

/-- The batch minimum never exceeds the batch maximum. -/
theorem seriesMin_le_seriesMax (xs : List ℚ) (mn mx : ℚ)
    (hmn : seriesMin xs = some mn) (hmx : seriesMax xs = some mx) : mn ≤ mx := by
  cases xs with
  | nil => simp [seriesMin] at hmn
  | cons x xs =>
    simp only [seriesMin, seriesMax, Option.some.injEq] at hmn hmx
    subst hmn; subst hmx
    exact foldl_min_le_foldl_max xs x x le_rfl

/-- A rational clip is the identity inside the bounds. -/
theorem clipQ_eq_self (lo hi x : ℚ) (h1 : lo ≤ x) (h2 : x ≤ hi) :
    clipQ lo hi x = x := by
  rw [clipQ, min_eq_left h2, max_eq_right h1]

/-- The integer clip of `_suggest_rate_cached` is the identity inside
the bounds. -/
theorem intClip_eq_self (lo hi x : ℤ) (h1 : lo ≤ x) (h2 : x ≤ hi) :
    max lo (min hi x) = x := by
  rw [min_eq_right h2, max_eq_right h1]

/-- The clip to [0,1] lands in [0,1]. -/
theorem clipQ_zero_one_mem (x : ℚ) : 0 ≤ clipQ 0 1 x ∧ clipQ 0 1 x ≤ 1 :=
  ⟨le_max_left 0 _, max_le zero_le_one (min_le_right x 1)⟩

/-- The clip to [0,1] saturates at 1 for any value at least 1. -/
theorem clipQ_eq_one (x : ℚ) (h : 1 ≤ x) : clipQ 0 1 x = 1 := by
  rw [clipQ, min_eq_right h, max_eq_right zero_le_one]

/-- Toggling `has_judgements` on shifts the triage weighted sum down by
exactly the judgements weight. -/
theorem triageLinear_judgements_toggle (cfg : WeightsConfig) (minE rangeE : ℚ)
    (r : SubmissionRecord) (h : r.has_judgements = false) :
    triageLinear cfg minE rangeE { r with has_judgements := true }
      = triageLinear cfg minE rangeE r - cfg.triage_weights.has_judgements := by
  simp [triageLinear, boolQ, h]

/-- Toggling `has_judgements` on shifts the pre-clip pricing rate up by
exactly the judgements adjustment. -/
theorem preClipRate_judgements_toggle (cfg : WeightsConfig)
    (a : SubmissionArgs) (base : ℤ) (h : a.has_judgements = false) :
    preClipRate cfg { a with has_judgements := true } base
      = preClipRate cfg a base + cfg.pricing_adjustments.has_judgements := by
  simp [preClipRate, h]
  ring

/-- `triage_scores` on a two-record batch with equal exposures: the
range guard yields 1 and each score is the clipped weighted sum. -/
theorem triage_scores_pair (cfg : WeightsConfig) (r1 r2 : SubmissionRecord)
    (he : r2.exposure_limit = r1.exposure_limit) :
    triage_scores cfg [r1, r2]
      = some [(r1.submission_id,
               clipQ 0 1 (triageLinear cfg r1.exposure_limit 1 r1)),
              (r2.submission_id,
               clipQ 0 1 (triageLinear cfg r1.exposure_limit 1 r2))] := by
  simp [triage_scores, seriesMax, seriesMin, he, max_self, min_self, lt_irrefl]

/-- With `minE ≤ maxE`, the code's range guard (`max > min` else 1)
and the claim's guard (`max == min` then 1) produce the same score. -/
theorem triageLinear_eq_spec (cfg : WeightsConfig) (minE maxE : ℚ)
    (r : SubmissionRecord) (hle : minE ≤ maxE) :
    triageLinear cfg minE (if maxE > minE then maxE - minE else 1) r
      = triageScoreSpec cfg minE maxE r := by
  rcases eq_or_lt_of_le hle with heq | hlt
  · simp [triageLinear, triageScoreSpec, normExposureSpec, ← heq, lt_irrefl]
  · simp [triageLinear, triageScoreSpec, normExposureSpec, hlt, ne_of_gt hlt]

/-- Strings whose first characters differ on explicit-prefix form are
distinct. -/
theorem string_prefix_ne (p rest lit : String) (c d : Char)
    (cp cl : List Char) (hp : p.data = c :: cp) (hl : lit.data = d :: cl)
    (hcd : c ≠ d) : p ++ rest ≠ lit := by
  intro h
  have hd := congrArg String.data h
  rw [String.data_append, hp, hl, List.cons_append] at hd
  exact hcd (List.cons.inj hd).1

/-- Two strings in explicit-prefix form with different first characters
are distinct. -/
theorem string_prefix_ne2 (p1 r1 p2 r2 : String) (c d : Char)
    (cp cl : List Char) (hp : p1.data = c :: cp) (hq : p2.data = d :: cl)
    (hcd : c ≠ d) : p1 ++ r1 ≠ p2 ++ r2 := by
  intro h
  have hd := congrArg String.data h
  rw [String.data_append, String.data_append, hp, hq, List.cons_append,
    List.cons_append] at hd
  exact hcd (List.cons.inj hd).1

/-- Every error produced by the row-conversion loop carries a
row-indexed message. -/
theorem convertRows_error_shape {α : Type}
    (conv : List (String × String) → Except String α) (header : List String) :
    ∀ (index : Nat) (rows : List (List String)) (e : String),
      convertRows conv header index rows = .error e →
      ∃ idx exc, e = rowErrorMessage idx exc := by
  intro index rows
  induction rows generalizing index with
  | nil => intro e he; simp [convertRows] at he
  | cons row rest ih =>
    intro e he
    rw [convertRows] at he
    rcases hc : conv (header.zip row) with exc | rec
    · rw [hc] at he
      exact ⟨index, exc, (Except.error.inj he).symm⟩
    · rw [hc] at he
      rcases hr : convertRows conv header (index + 1) rest with e' | recs
      · rw [hr] at he
        obtain ⟨i, x, hx⟩ := ih (index + 1) e' hr
        exact ⟨i, x, by rw [← Except.error.inj he, hx]⟩
      · rw [hr] at he
        cases he

/-- A known sector makes the pricing computation succeed. -/
theorem suggestRateCached_isSome_of_lookup (cfg : WeightsConfig)
    (a : SubmissionArgs) (base : ℤ)
    (h : SECTOR_BASE_RATES.lookup a.sector = some base) :
    (suggestRateCached cfg a).isSome = true := by
  rw [suggestRateCached_decompose cfg a base h]
  rfl

/-!  Claim theorems.  -/

/-- C1 counterexample: with `cfgExample` cached and an invalid document
on disk, `reload_weights` surfaces the error, but a subsequent
`get_weights_config` no longer returns the previously cached
configuration — the cache was cleared before the load was attempted. -/
theorem failed_reload_loses_cached_config :
    (reload_weights (.error "invalid weights document")
        { weightsCache := some cfgExample, pricingCache := [] }).1
      = .error "invalid weights document"
    ∧ (get_weights_config (.error "invalid weights document")
        (reload_weights (.error "invalid weights document")
          { weightsCache := some cfgExample, pricingCache := [] }).2).1
      ≠ .ok cfgExample := by
  exact ⟨rfl, fun h => Except.noConfusion h⟩

/-- C1 (amended): `reload_weights` clears the configuration cache
before loading, so a failed reload surfaces the error and leaves the
cache empty; every subsequent `get_weights_config` re-attempts the load
(and fails while the document stays invalid) instead of returning the
previously cached configuration. -/
theorem reload_clears_cache_before_load (st : AppState) (e : String) :
    reload_weights (.error e) st
      = (.error e, { st with weightsCache := none })
    ∧ (get_weights_config (.error e) { st with weightsCache := none }).1
      = .error e :=
  ⟨rfl, rfl⟩

/-- C2: the renewal priority operation never returns a score without
error — `app/service.py` lines 100-103 subscript the pydantic
`Thresholds` model (`thresholds["change_pct_min"]`), which raises
`TypeError` on every call, before any formula is evaluated. -/
theorem renewals_priority_always_raises_typeerror (cfg : WeightsConfig)
    (policies : List PolicyRecord) :
    renewals_priority cfg policies = .error .typeError := rfl

/-- C3 counterexample: price a submission under `cfgExample`, reload to
`cfgReloaded` (judgements +100), price the same submission again — the
memoized pair from the old configuration is returned even though an
uncached computation under the new configuration yields a different
rate and adjustment note. -/
theorem pricing_cache_serves_stale_rate_after_reload :
    (suggest_rate_stateful (.ok cfgReloaded) judgementsArgs
        (reload_weights (.ok cfgReloaded)
          (suggest_rate_stateful (.ok cfgExample) judgementsArgs
            { weightsCache := none, pricingCache := [] }).2).2).1
      = .ok (some (260, ["Outstanding judgements (+60 bps)"]))
    ∧ suggestRateCached cfgReloaded judgementsArgs
      = some (300, ["Outstanding judgements (+100 bps)"]) := by
  exact ⟨rfl, by decide⟩

/-- C3 (amended): the pricing memoization is not invalidated on reload
and the cached body captures the configuration implicitly, so after any
reload a submission whose key is in the cache is answered from the
cache — i.e. against the configuration active when the entry was first
computed, not the currently active one. -/
theorem pricing_cache_hit_ignores_reload (load load2 : LoadOutcome)
    (a : SubmissionArgs) (st : AppState) (res : ℤ × List String)
    (h : st.pricingCache.lookup a = some res) :
    (suggest_rate_stateful load2 a (reload_weights load st).2).1
      = .ok (some res) := by
  have hp : (reload_weights load st).2.pricingCache = st.pricingCache := by
    unfold reload_weights get_weights_config
    cases load <;> rfl
  unfold suggest_rate_stateful
  rw [hp, h]

theorem pricing_cache_hit_ignores_reload_witness :
    (AppState.mk none
        [(judgementsArgs, (260, ["Outstanding judgements (+60 bps)"]))]
      ).pricingCache.lookup judgementsArgs
      = some (260, ["Outstanding judgements (+60 bps)"])
    ∧ (suggest_rate_stateful (.ok cfgReloaded) judgementsArgs
        (reload_weights (.ok cfgReloaded)
          (AppState.mk none
            [(judgementsArgs, (260, ["Outstanding judgements (+60 bps)"]))])).2).1
      = .ok (some (260, ["Outstanding judgements (+60 bps)"])) :=
  ⟨by decide,
   pricing_cache_hit_ignores_reload (.ok cfgReloaded) (.ok cfgReloaded)
     judgementsArgs _ _ (by decide)⟩

/-- C4: whenever the bounds are coherent (`min_rate ≤ max_rate`), every
successfully priced submission gets a rate within
`[min_rate, max_rate]`. -/
theorem pricing_rate_within_bounds (cfg : WeightsConfig) (a : SubmissionArgs)
    (r : ℤ) (adjs : List String)
    (hb : cfg.pricing_bounds.min_rate ≤ cfg.pricing_bounds.max_rate)
    (h : suggestRateCached cfg a = some (r, adjs)) :
    cfg.pricing_bounds.min_rate ≤ r ∧ r ≤ cfg.pricing_bounds.max_rate := by
  cases hlk : SECTOR_BASE_RATES.lookup a.sector with
  | none => rw [suggestRateCached, hlk] at h; cases h
  | some base =>
    rw [suggestRateCached_decompose cfg a base hlk] at h
    simp only [Option.some.injEq, Prod.mk.injEq] at h
    obtain ⟨hr, -⟩ := h
    subst hr
    exact ⟨le_max_left _ _, max_le hb (min_le_left _ _)⟩

theorem pricing_rate_within_bounds_witness :
    cfgExample.pricing_bounds.min_rate ≤ cfgExample.pricing_bounds.max_rate
    ∧ suggestRateCached cfgExample strongArgs
        = some (190, ["Financials attached (-20 bps)",
                      "Good broker track record (-10 bps)"])
    ∧ (cfgExample.pricing_bounds.min_rate ≤ 190
       ∧ (190:ℤ) ≤ cfgExample.pricing_bounds.max_rate) :=
  ⟨by decide, by decide,
   pricing_rate_within_bounds cfgExample strongArgs 190
     ["Financials attached (-20 bps)", "Good broker track record (-10 bps)"]
     (by decide) (by decide)⟩

/-- C5 counterexample: under `cfgMin200` the `Services` submission with
no triggered adjustment has pre-clip rate exactly 200 = `min_rate`;
clamping changes nothing (the clip of 200 is 200), yet the minimum clip
note is appended — refuting "appended if and only if clamping changed
the rate value". -/
theorem clip_note_without_rate_change :
    suggestRateCached cfgMin200 quietArgs
      = some (200, ["Rate clipped to minimum (200 bps)"])
    ∧ SECTOR_BASE_RATES.lookup quietArgs.sector = some 200
    ∧ preClipRate cfgMin200 quietArgs 200 = 200
    ∧ max cfgMin200.pricing_bounds.min_rate
        (min cfgMin200.pricing_bounds.max_rate 200) = 200 := by
  refine ⟨by decide, by decide, by decide, by decide⟩

/-- C5 (amended): a clip note is appended exactly when the clipped rate
equals a configured bound — the minimum note whenever the final rate
equals `min_rate` (even if clamping changed nothing), otherwise the
maximum note whenever it equals `max_rate`; a rate strictly between the
bounds gets no note. -/
theorem clip_note_iff_rate_at_bound (cfg : WeightsConfig) (a : SubmissionArgs)
    (r : ℤ) (adjs : List String)
    (h : suggestRateCached cfg a = some (r, adjs)) :
    (r = cfg.pricing_bounds.min_rate →
       adjs = baseAdjustments cfg a ++ [minClipNote cfg])
    ∧ (r ≠ cfg.pricing_bounds.min_rate → r = cfg.pricing_bounds.max_rate →
       adjs = baseAdjustments cfg a ++ [maxClipNote cfg])
    ∧ (r ≠ cfg.pricing_bounds.min_rate → r ≠ cfg.pricing_bounds.max_rate →
       adjs = baseAdjustments cfg a) := by
  cases hlk : SECTOR_BASE_RATES.lookup a.sector with
  | none => rw [suggestRateCached, hlk] at h; cases h
  | some base =>
    rw [suggestRateCached_decompose cfg a base hlk] at h
    simp only [Option.some.injEq, Prod.mk.injEq] at h
    obtain ⟨hr, ha⟩ := h
    subst hr
    subst ha
    refine ⟨?_, ?_, ?_⟩
    · intro h1; rw [if_pos h1]
    · intro h1 h2; rw [if_neg h1, if_pos h2]
    · intro h1 h2; rw [if_neg h1, if_neg h2, List.append_nil]

theorem clip_note_iff_rate_at_bound_witness :
    suggestRateCached cfgExample strongArgs
      = some (190, ["Financials attached (-20 bps)",
                    "Good broker track record (-10 bps)"])
    ∧ (((190:ℤ) = cfgExample.pricing_bounds.min_rate →
         ["Financials attached (-20 bps)", "Good broker track record (-10 bps)"]
           = baseAdjustments cfgExample strongArgs ++ [minClipNote cfgExample])
       ∧ ((190:ℤ) ≠ cfgExample.pricing_bounds.min_rate →
           (190:ℤ) = cfgExample.pricing_bounds.max_rate →
          ["Financials attached (-20 bps)", "Good broker track record (-10 bps)"]
            = baseAdjustments cfgExample strongArgs ++ [maxClipNote cfgExample])
       ∧ ((190:ℤ) ≠ cfgExample.pricing_bounds.min_rate →
           (190:ℤ) ≠ cfgExample.pricing_bounds.max_rate →
          ["Financials attached (-20 bps)", "Good broker track record (-10 bps)"]
            = baseAdjustments cfgExample strongArgs)) :=
  ⟨by decide,
   clip_note_iff_rate_at_bound cfgExample strongArgs 190
     ["Financials attached (-20 bps)", "Good broker track record (-10 bps)"]
     (by decide)⟩

/-- C6 counterexample: both halves of the monotonicity claim fail once
a clamp saturates.  Under `cfgTriageSaturated`, the judgements-free and
judgements-set copies of the same record both clip to triage score 1
(not strictly lower); under `cfgMax300`, the `Agri` pair prices at 280
vs 300 — higher by 20, not by `adj.has_judgements` = 60. -/
theorem judgements_monotonicity_fails_under_clipping :
    triage_scores cfgTriageSaturated [perfectBrokerRec, perfectBrokerRecJ]
      = some [("s1", 1), ("s1", 1)]
    ∧ suggestRateCached cfgMax300 agriArgs = some (280, [])
    ∧ suggestRateCached cfgMax300 { agriArgs with has_judgements := true }
      = some (300, ["Outstanding judgements (+60 bps)",
                    "Rate clipped to maximum (300 bps)"])
    ∧ (300:ℤ) - 280 ≠ cfgMax300.pricing_adjustments.has_judgements := by
  refine ⟨?_, by decide, by decide, by decide⟩
  have he : perfectBrokerRecJ.exposure_limit = perfectBrokerRec.exposure_limit := rfl
  rw [triage_scores_pair cfgTriageSaturated perfectBrokerRec perfectBrokerRecJ he]
  have h1 : clipQ 0 1 (triageLinear cfgTriageSaturated
      perfectBrokerRec.exposure_limit 1 perfectBrokerRec) = 1 :=
    clipQ_eq_one _ (by
      norm_num [triageLinear, boolQ, cfgTriageSaturated, cfgExample,
        perfectBrokerRec, Rat.mkRat_eq_div])
  have h2 : clipQ 0 1 (triageLinear cfgTriageSaturated
      perfectBrokerRec.exposure_limit 1 perfectBrokerRecJ) = 1 :=
    clipQ_eq_one _ (by
      norm_num [triageLinear, boolQ, cfgTriageSaturated, cfgExample,
        perfectBrokerRec, perfectBrokerRecJ, Rat.mkRat_eq_div])
  rw [h1, h2]
  rfl

/-- C6 (amended): holding all other fields fixed, setting
`has_judgements` strictly lowers the triage score by exactly the
judgements weight and strictly raises the suggested rate by exactly
`adj.has_judgements` bps, provided no clamp saturates: the two weighted
sums stay inside [0,1] and the two pre-clip rates stay inside the
pricing bounds (and the weight and adjustment are positive). -/
theorem judgements_monotone_without_clipping
    (cfg : WeightsConfig) (rF : SubmissionRecord)
    (hF : rF.has_judgements = false)
    (hw : 0 < cfg.triage_weights.has_judgements)
    (hlo : 0 ≤ triageLinear cfg rF.exposure_limit 1
             { rF with has_judgements := true })
    (hhi : triageLinear cfg rF.exposure_limit 1 rF ≤ 1)
    (aF : SubmissionArgs) (haF : aF.has_judgements = false)
    (base : ℤ) (hlk : SECTOR_BASE_RATES.lookup aF.sector = some base)
    (hadj : 0 < cfg.pricing_adjustments.has_judgements)
    (hminb : cfg.pricing_bounds.min_rate ≤ preClipRate cfg aF base)
    (hmaxb : preClipRate cfg { aF with has_judgements := true } base
               ≤ cfg.pricing_bounds.max_rate) :
    (∃ sF sT,
       triage_scores cfg [rF, { rF with has_judgements := true }]
         = some [(rF.submission_id, sF), (rF.submission_id, sT)]
       ∧ sT < sF ∧ sF - sT = cfg.triage_weights.has_judgements)
    ∧ (∃ rrF rrT : ℤ,
       (suggestRateCached cfg aF).map Prod.fst = some rrF
       ∧ (suggestRateCached cfg { aF with has_judgements := true }).map
           Prod.fst = some rrT
       ∧ rrF < rrT ∧ rrT - rrF = cfg.pricing_adjustments.has_judgements) := by
  constructor
  · have hT : triageLinear cfg rF.exposure_limit 1
        { rF with has_judgements := true }
        = triageLinear cfg rF.exposure_limit 1 rF
          - cfg.triage_weights.has_judgements :=
      triageLinear_judgements_toggle cfg rF.exposure_limit 1 rF hF
    have he : ({ rF with has_judgements := true } :
        SubmissionRecord).exposure_limit = rF.exposure_limit := rfl
    have hid : ({ rF with has_judgements := true } :
        SubmissionRecord).submission_id = rF.submission_id := rfl
    have hpair := triage_scores_pair cfg rF { rF with has_judgements := true } he
    rw [hT, hid] at hpair
    rw [hT] at hlo
    have c1 : clipQ 0 1 (triageLinear cfg rF.exposure_limit 1 rF)
        = triageLinear cfg rF.exposure_limit 1 rF :=
      clipQ_eq_self _ _ _ (by linarith) hhi
    have c2 : clipQ 0 1 (triageLinear cfg rF.exposure_limit 1 rF
        - cfg.triage_weights.has_judgements)
        = triageLinear cfg rF.exposure_limit 1 rF
          - cfg.triage_weights.has_judgements :=
      clipQ_eq_self _ _ _ hlo (by linarith)
    rw [c1, c2] at hpair
    exact ⟨_, _, hpair, by linarith, by ring⟩
  · have hpT : preClipRate cfg { aF with has_judgements := true } base
        = preClipRate cfg aF base + cfg.pricing_adjustments.has_judgements :=
      preClipRate_judgements_toggle cfg aF base haF
    have hlk2 : SECTOR_BASE_RATES.lookup
        ({ aF with has_judgements := true } : SubmissionArgs).sector
        = some base := hlk
    have hFle : preClipRate cfg aF base
        ≤ preClipRate cfg { aF with has_judgements := true } base := by
      rw [hpT]; linarith
    have e1 : max cfg.pricing_bounds.min_rate
        (min cfg.pricing_bounds.max_rate (preClipRate cfg aF base))
        = preClipRate cfg aF base :=
      intClip_eq_self _ _ _ hminb (le_trans hFle hmaxb)
    have e2 : max cfg.pricing_bounds.min_rate
        (min cfg.pricing_bounds.max_rate
          (preClipRate cfg { aF with has_judgements := true } base))
        = preClipRate cfg { aF with has_judgements := true } base :=
      intClip_eq_self _ _ _ (le_trans hminb hFle) hmaxb
    refine ⟨preClipRate cfg aF base,
            preClipRate cfg { aF with has_judgements := true } base,
            ?_, ?_, by rw [hpT]; linarith, by rw [hpT]; ring⟩
    · rw [suggestRateCached_decompose cfg aF base hlk]
      exact congrArg some e1
    · rw [suggestRateCached_decompose cfg _ base hlk2]
      exact congrArg some e2

theorem judgements_monotone_without_clipping_witness :
    strongRec.has_judgements = false
    ∧ 0 < cfgExample.triage_weights.has_judgements
    ∧ 0 ≤ triageLinear cfgExample strongRec.exposure_limit 1
        { strongRec with has_judgements := true }
    ∧ triageLinear cfgExample strongRec.exposure_limit 1 strongRec ≤ 1
    ∧ strongArgs.has_judgements = false
    ∧ SECTOR_BASE_RATES.lookup strongArgs.sector = some 220
    ∧ 0 < cfgExample.pricing_adjustments.has_judgements
    ∧ cfgExample.pricing_bounds.min_rate ≤ preClipRate cfgExample strongArgs 220
    ∧ preClipRate cfgExample { strongArgs with has_judgements := true } 220
        ≤ cfgExample.pricing_bounds.max_rate
    ∧ ((∃ sF sT,
         triage_scores cfgExample
             [strongRec, { strongRec with has_judgements := true }]
           = some [(strongRec.submission_id, sF),
                   (strongRec.submission_id, sT)]
         ∧ sT < sF ∧ sF - sT = cfgExample.triage_weights.has_judgements)
       ∧ (∃ rrF rrT : ℤ,
         (suggestRateCached cfgExample strongArgs).map Prod.fst = some rrF
         ∧ (suggestRateCached cfgExample
             { strongArgs with has_judgements := true }).map Prod.fst
             = some rrT
         ∧ rrF < rrT
         ∧ rrT - rrF = cfgExample.pricing_adjustments.has_judgements)) :=
  ⟨by decide, by decide,
   by norm_num [triageLinear, boolQ, cfgExample, strongRec, Rat.mkRat_eq_div],
   by norm_num [triageLinear, boolQ, cfgExample, strongRec, Rat.mkRat_eq_div],
   by decide, by decide, by decide, by decide, by decide,
   judgements_monotone_without_clipping cfgExample strongRec (by decide)
     (by decide)
     (by norm_num [triageLinear, boolQ, cfgExample, strongRec, Rat.mkRat_eq_div])
     (by norm_num [triageLinear, boolQ, cfgExample, strongRec, Rat.mkRat_eq_div])
     strongArgs (by decide) 220 (by decide) (by decide) (by decide) (by decide)⟩

/-- C7: on every non-empty batch, the triage pipeline succeeds, each
score is the clip to [0,1] of the weighted sum using the batch-relative
exposure normalization `(e - batch_min) / (batch_max - batch_min)` with
denominator 1 when all exposures are equal (min/max over the current
batch only), and every returned score lies in [0,1]. -/
theorem triage_scores_batch_normalized_and_bounded
    (cfg : WeightsConfig) (subs : List SubmissionRecord) (h : subs ≠ []) :
    ∃ minE maxE L,
      seriesMin (subs.map (·.exposure_limit)) = some minE
      ∧ seriesMax (subs.map (·.exposure_limit)) = some maxE
      ∧ triage_scores cfg subs = some L
      ∧ L = subs.map (fun r =>
          (r.submission_id, clipQ 0 1 (triageScoreSpec cfg minE maxE r)))
      ∧ ∀ p ∈ L, 0 ≤ p.2 ∧ p.2 ≤ 1 := by
  obtain ⟨x, xs, rfl⟩ := List.exists_cons_of_ne_nil h
  have hmn : seriesMin ((x :: xs).map (·.exposure_limit))
      = some ((xs.map (·.exposure_limit)).foldl min x.exposure_limit) := rfl
  have hmx : seriesMax ((x :: xs).map (·.exposure_limit))
      = some ((xs.map (·.exposure_limit)).foldl max x.exposure_limit) := rfl
  have hle := seriesMin_le_seriesMax ((x :: xs).map (·.exposure_limit)) _ _ hmn hmx
  refine ⟨_, _, _, hmn, hmx, rfl, ?_, ?_⟩
  · exact List.map_congr_left fun r _ => by
      rw [triageLinear_eq_spec cfg _ _ r hle]
  · intro p hp
    obtain ⟨r, -, rfl⟩ := List.mem_map.mp hp
    exact clipQ_zero_one_mem _

theorem triage_scores_batch_normalized_and_bounded_witness :
    ([strongRec] ≠ ([] : List SubmissionRecord))
    ∧ (∃ minE maxE L,
        seriesMin ([strongRec].map (·.exposure_limit)) = some minE
        ∧ seriesMax ([strongRec].map (·.exposure_limit)) = some maxE
        ∧ triage_scores cfgExample [strongRec] = some L
        ∧ L = [strongRec].map (fun r =>
            (r.submission_id, clipQ 0 1 (triageScoreSpec cfgExample minE maxE r)))
        ∧ ∀ p ∈ L, 0 ≤ p.2 ∧ p.2 ≤ 1) :=
  ⟨List.cons_ne_nil _ _,
   triage_scores_batch_normalized_and_bounded cfgExample [strongRec]
     (List.cons_ne_nil _ _)⟩

/-- C8 counterexample: `parse_bool` strips surrounding whitespace before
matching, so the input `" true "` — which matches no vocabulary word
case-insensitively — parses to `true`, refuting "returns false for every
other string". -/
theorem parse_bool_accepts_padded_true :
    parse_bool " true " = true
    ∧ pyLower " true " ∉ TRUE_VALUES
    ∧ " true " ∉ TRUE_VALUES := by
  refine ⟨by decide, by decide, by decide⟩

/-- C8 (amended): `parse_bool` returns `true` exactly when the input,
after stripping leading/trailing whitespace and lowercasing, is one of
`TRUE_VALUES`; every other string — `FALSE_VALUES` matches and
unrecognized values alike — returns `false`, and no input is an
error (the function is total). -/
theorem parse_bool_true_iff_stripped_lowered_in_vocab (s : String) :
    parse_bool s = true ↔ pyLower (pyStrip s) ∈ TRUE_VALUES := by
  unfold parse_bool
  by_cases ht : pyLower (pyStrip s) ∈ TRUE_VALUES
  · simp [ht]
  · by_cases hf : pyLower (pyStrip s) ∈ FALSE_VALUES <;> simp [ht, hf]

/-- C10: the base-rate table is defined on exactly the six sector
enumeration values of `app/models.py`, so for every submission whose
sector passed boundary validation the lookup succeeds and
`suggest_rate` cannot fail on it. -/
theorem sector_base_rate_lookup_total :
    ∀ s ∈ submissionSectors, (SECTOR_BASE_RATES.lookup s).isSome = true
      ∧ ∀ (cfg : WeightsConfig) (a : SubmissionArgs), a.sector = s →
          (suggestRateCached cfg a).isSome = true := by
  intro s hs
  have hcase : s = "Retail" ∨ s = "Manufacturing" ∨ s = "Logistics"
      ∨ s = "Agri" ∨ s = "Services" ∨ s = "Other" := by
    simpa [submissionSectors] using hs
  rcases hcase with rfl | rfl | rfl | rfl | rfl | rfl <;>
    exact ⟨rfl, fun cfg a ha =>
      suggestRateCached_isSome_of_lookup cfg a _ (by rw [ha]; rfl)⟩

theorem sector_base_rate_lookup_total_witness :
    "Retail" ∈ submissionSectors
    ∧ strongArgs.sector = "Retail"
    ∧ (SECTOR_BASE_RATES.lookup "Retail").isSome = true
    ∧ (suggestRateCached cfgExample strongArgs).isSome = true :=
  ⟨by decide, by decide,
   (sector_base_rate_lookup_total "Retail" (by decide)).1,
   (sector_base_rate_lookup_total "Retail" (by decide)).2 cfgExample
     strongArgs (by decide)⟩

/-- C9 counterexample: a CSV containing only a header row whose header
lacks required columns fails with the missing-columns error, not with
an empty-file error — refuting "for every CSV upload that ... contains
only a header row, parsing fails with an empty-file error". -/
theorem header_only_missing_columns_not_empty_error :
    parse_csv_upload POLICY_COLUMNS "policies" (fun _ => Except.ok (0:Nat))
        [["policy_id", "broker"]]
      = .error (missingColumnsMessage "policies" POLICY_COLUMNS
          (POLICY_COLUMNS.filter
            (fun c => c ∉ (["policy_id", "broker"] : List String))))
    ∧ missingColumnsMessage "policies" POLICY_COLUMNS
        (POLICY_COLUMNS.filter
          (fun c => c ∉ (["policy_id", "broker"] : List String)))
        ≠ "CSV file is empty or missing a header row"
    ∧ missingColumnsMessage "policies" POLICY_COLUMNS
        (POLICY_COLUMNS.filter
          (fun c => c ∉ (["policy_id", "broker"] : List String)))
        ≠ "CSV file is empty or has no data rows" := by
  refine ⟨rfl, by decide, by decide⟩

/-- C9 (amended): an entirely empty upload fails with the
missing-header message; a header-only upload whose header contains
every required column fails with the no-data-rows message; a header
lacking required columns fails with the missing-columns message
(also when the file is header-only); the missing-columns message
differs from both empty-file messages; and when the header contains
every required column the missing-columns error is never produced. -/
theorem csv_empty_vs_missing_columns {α : Type}
    (required : List String) (fileType : String)
    (conv : List (String × String) → Except String α) :
    parse_csv_upload required fileType conv []
      = .error "CSV file is empty or missing a header row"
    ∧ (∀ header : List String,
        required.filter (fun c => c ∉ header) = [] →
        parse_csv_upload required fileType conv [header]
          = .error "CSV file is empty or has no data rows")
    ∧ (∀ (header : List String) (rows : List (List String)),
        required.filter (fun c => c ∉ header) ≠ [] →
        parse_csv_upload required fileType conv (header :: rows)
          = .error (missingColumnsMessage fileType required
              (required.filter (fun c => c ∉ header))))
    ∧ (∀ (ft : String) (req ms : List String),
        missingColumnsMessage ft req ms
          ≠ "CSV file is empty or missing a header row"
        ∧ missingColumnsMessage ft req ms
          ≠ "CSV file is empty or has no data rows")
    ∧ (∀ (header : List String) (rows : List (List String)),
        required.filter (fun c => c ∉ header) = [] →
        ∀ (ft : String) (req ms : List String),
          parse_csv_upload required fileType conv (header :: rows)
            ≠ .error (missingColumnsMessage ft req ms)) := by
  refine ⟨rfl, ?_, ?_, ?_, ?_⟩
  · intro header hm
    have hvalid : validate_csv_columns header required fileType = .ok () := by
      simp only [validate_csv_columns]
      rw [hm]
      rfl
    simp only [parse_csv_upload, hvalid]
    rfl
  · intro header rows hm
    rcases hflt : required.filter (fun c => c ∉ header) with _ | ⟨c, cs⟩
    · exact absurd hflt hm
    · have hvalid : validate_csv_columns header required fileType
          = .error (missingColumnsMessage fileType required (c :: cs)) := by
        simp only [validate_csv_columns]
        rw [hflt]
        rfl
      simp only [parse_csv_upload, hvalid]
  · intro ft req ms
    constructor
    · exact string_prefix_ne "Missing required columns in " _ _ 'M' 'C' _ _
        rfl rfl (by decide)
    · exact string_prefix_ne "Missing required columns in " _ _ 'M' 'C' _ _
        rfl rfl (by decide)
  · intro header rows hm ft req ms
    have hvalid : validate_csv_columns header required fileType = .ok () := by
      simp only [validate_csv_columns]
      rw [hm]
      rfl
    simp only [parse_csv_upload, hvalid]
    rcases hcr : convertRows conv header 1 rows with e | recs
    · obtain ⟨i, x, rfl⟩ := convertRows_error_shape conv header 1 rows e hcr
      intro h
      have hmsg := Except.error.inj h
      exact string_prefix_ne2 "Error parsing row "
        (toString i ++ (": " ++ (x
          ++ ". Please check data types and required fields.")))
        "Missing required columns in "
        (ft ++ (" CSV: " ++ (joinSorted ms
          ++ (". Required columns: " ++ joinSorted req))))
        'E' 'M' _ _ rfl rfl (by decide) hmsg
    · rcases recs with _ | ⟨r, rs⟩
      · intro h
        have hmsg := Except.error.inj h
        exact (string_prefix_ne "Missing required columns in "
          (ft ++ (" CSV: " ++ (joinSorted ms
            ++ (". Required columns: " ++ joinSorted req))))
          "CSV file is empty or has no data rows" 'M' 'C' _ _ rfl rfl
          (by decide)) hmsg.symm
      · exact fun h => Except.noConfusion h

theorem csv_empty_vs_missing_columns_witness :
    POLICY_COLUMNS.filter (fun c => c ∉ POLICY_COLUMNS) = []
    ∧ parse_csv_upload POLICY_COLUMNS "policies"
        (fun _ => Except.ok (0:Nat)) [POLICY_COLUMNS]
      = .error "CSV file is empty or has no data rows"
    ∧ parse_csv_upload POLICY_COLUMNS "policies"
        (fun _ => Except.ok (0:Nat)) []
      = .error "CSV file is empty or missing a header row" :=
  ⟨by decide,
   (csv_empty_vs_missing_columns POLICY_COLUMNS "policies"
     (fun _ => Except.ok (0:Nat))).2.1 POLICY_COLUMNS (by decide),
   (csv_empty_vs_missing_columns POLICY_COLUMNS "policies"
     (fun _ => Except.ok (0:Nat))).1⟩

end CreditX
